import Mathlib

/-!
Verification of the yaxpeax-6502 single-instruction decoder (src/lib.rs).

The embedding models the Rust source shallowly:
* machine words (`u8`) and addresses (`u16`) are `Nat`; claims that concern
  byte values carry explicit `< 256` bounds;
* the `Reader` byte cursor is a `List Nat`, read strictly front to back;
* `decode_into`, which in Rust mutates an `&mut Instruction` and returns
  `Result<(), DecodeError>`, is modelled as a function from the initial
  instruction and the byte list to (outcome, final instruction, remaining
  bytes); the `unreachable!()` branch of the source is modelled as the
  distinguished outcome `panicUnreachable`.
-/

set_option maxHeartbeats 1000000

/-- The 6502 operations: 56 mnemonics plus `Invalid` carrying the raw
unrecognized opcode byte (`Opcode` enum of the source). -/
inductive Opcode where
  | Invalid (b : Nat)
  | ADC | AND | ASL | BCC | BCS | BEQ | BIT | BMI | BNE | BPL | BRK | BVC | BVS
  | CLC | CLD | CLI | CLV | CMP | CPX | CPY | DEC | DEX | DEY | EOR | INC | INX
  | INY | JMP | JSR | LDA | LDX | LDY | LSR | NOP | ORA | PHA | PHP | PLA | PLP
  | ROL | ROR | RTI | RTS | SBC | SEC | SED | SEI | STA | STX | STY | TAX | TAY
  | TSX | TXA | TXS | TYA

/-- Injective numeric code for `Opcode`, used only to decide equality
(the source derives `PartialEq`) without a quadratic case split. -/
def Opcode.code : Opcode → Nat
  | .Invalid b => b + 56
  | .ADC => 0
  | .AND => 1
  | .ASL => 2
  | .BCC => 3
  | .BCS => 4
  | .BEQ => 5
  | .BIT => 6
  | .BMI => 7
  | .BNE => 8
  | .BPL => 9
  | .BRK => 10
  | .BVC => 11
  | .BVS => 12
  | .CLC => 13
  | .CLD => 14
  | .CLI => 15
  | .CLV => 16
  | .CMP => 17
  | .CPX => 18
  | .CPY => 19
  | .DEC => 20
  | .DEX => 21
  | .DEY => 22
  | .EOR => 23
  | .INC => 24
  | .INX => 25
  | .INY => 26
  | .JMP => 27
  | .JSR => 28
  | .LDA => 29
  | .LDX => 30
  | .LDY => 31
  | .LSR => 32
  | .NOP => 33
  | .ORA => 34
  | .PHA => 35
  | .PHP => 36
  | .PLA => 37
  | .PLP => 38
  | .ROL => 39
  | .ROR => 40
  | .RTI => 41
  | .RTS => 42
  | .SBC => 43
  | .SEC => 44
  | .SED => 45
  | .SEI => 46
  | .STA => 47
  | .STX => 48
  | .STY => 49
  | .TAX => 50
  | .TAY => 51
  | .TSX => 52
  | .TXA => 53
  | .TXS => 54
  | .TYA => 55

/-- Left inverse of `Opcode.code`. -/
def Opcode.ofCode : Nat → Opcode
  | 0 => .ADC
  | 1 => .AND
  | 2 => .ASL
  | 3 => .BCC
  | 4 => .BCS
  | 5 => .BEQ
  | 6 => .BIT
  | 7 => .BMI
  | 8 => .BNE
  | 9 => .BPL
  | 10 => .BRK
  | 11 => .BVC
  | 12 => .BVS
  | 13 => .CLC
  | 14 => .CLD
  | 15 => .CLI
  | 16 => .CLV
  | 17 => .CMP
  | 18 => .CPX
  | 19 => .CPY
  | 20 => .DEC
  | 21 => .DEX
  | 22 => .DEY
  | 23 => .EOR
  | 24 => .INC
  | 25 => .INX
  | 26 => .INY
  | 27 => .JMP
  | 28 => .JSR
  | 29 => .LDA
  | 30 => .LDX
  | 31 => .LDY
  | 32 => .LSR
  | 33 => .NOP
  | 34 => .ORA
  | 35 => .PHA
  | 36 => .PHP
  | 37 => .PLA
  | 38 => .PLP
  | 39 => .ROL
  | 40 => .ROR
  | 41 => .RTI
  | 42 => .RTS
  | 43 => .SBC
  | 44 => .SEC
  | 45 => .SED
  | 46 => .SEI
  | 47 => .STA
  | 48 => .STX
  | 49 => .STY
  | 50 => .TAX
  | 51 => .TAY
  | 52 => .TSX
  | 53 => .TXA
  | 54 => .TXS
  | 55 => .TYA
  | n + 56 => .Invalid n

theorem Opcode.ofCode_code (x : Opcode) : Opcode.ofCode x.code = x := by
  cases x <;> rfl

instance : DecidableEq Opcode := fun x y =>
  if h : x.code = y.code then
    .isTrue (by
      have h2 := congrArg Opcode.ofCode h
      rwa [Opcode.ofCode_code, Opcode.ofCode_code] at h2)
  else
    .isFalse (fun he => h (by rw [he]))

/-- The 13 addressing-mode variants (`Operand` enum of the source).
One-byte payloads are `u8` in the source, two-byte payloads `u16`. -/
inductive Operand where
  | Accumulator
  | Absolute (a : Nat)
  | AbsoluteX (a : Nat)
  | AbsoluteY (a : Nat)
  | Immediate (b : Nat)
  | Implied
  | Indirect (a : Nat)
  | IndirectYIndexed (b : Nat)
  | XIndexedIndirect (b : Nat)
  | Relative (b : Nat)
  | ZeroPage (b : Nat)
  | ZeroPageX (b : Nat)
  | ZeroPageY (b : Nat)
  deriving DecidableEq

/-- `Operand::width` from the source: payload width in bytes, derived from
the variant tag alone. -/
def Operand.width : Operand → Nat
  | .Accumulator | .Implied => 0
  | .Immediate _ | .IndirectYIndexed _ | .XIndexedIndirect _ | .Relative _
  | .ZeroPage _ | .ZeroPageX _ | .ZeroPageY _ => 1
  | .Absolute _ | .AbsoluteX _ | .AbsoluteY _ | .Indirect _ => 2

/-- `DecodeError` enum of the source. -/
inductive DecodeError where
  | ExhaustedInput
  | InvalidOpcode
  | InvalidOperand
  deriving DecidableEq

/-- `Instruction` struct of the source: one operation paired with one
operand. -/
structure Instruction where
  opcode : Opcode
  operand : Operand
  deriving DecidableEq

/-- `Default for Instruction`: the invalid operation (byte 0xff) with the
implied operand. -/
def Instruction.default : Instruction := ⟨.Invalid 0xff, .Implied⟩

/-- `LengthedInstruction::len` from the source: operand width plus one
opcode byte. -/
def Instruction.len (i : Instruction) : Nat := i.operand.width + 1

/-- Outcome of a `decode_into` call: `Ok(())`, `Err(e)`, or the
`unreachable!()` panic in the width dispatch. -/
inductive DecodeOutcome where
  | ok
  | err (e : DecodeError)
  | panicUnreachable
  deriving DecidableEq

namespace InstDecoder

/-- `InstDecoder::op_type` from the source: the 256-entry opcode
classification table.  `Default::default()` payloads are `0`. -/
def op_type (opcode : Nat) : Except DecodeError (Opcode × Operand) :=
  match opcode with
  | 0x00 => .ok (.BRK, .Implied)
  | 0x01 => .ok (.ORA, .XIndexedIndirect 0)
  | 0x05 => .ok (.ORA, .ZeroPage 0)
  | 0x06 => .ok (.ASL, .ZeroPage 0)
  | 0x08 => .ok (.PHP, .Implied)
  | 0x09 => .ok (.ORA, .Immediate 0)
  | 0x0a => .ok (.ASL, .Accumulator)
  | 0x0d => .ok (.ORA, .Absolute 0)
  | 0x0e => .ok (.ASL, .Absolute 0)
  | 0x10 => .ok (.BPL, .Relative 0)
  | 0x11 => .ok (.ORA, .IndirectYIndexed 0)
  | 0x15 => .ok (.ORA, .ZeroPageX 0)
  | 0x16 => .ok (.ASL, .ZeroPageX 0)
  | 0x18 => .ok (.CLC, .Implied)
  | 0x19 => .ok (.ORA, .AbsoluteY 0)
  | 0x1d => .ok (.ORA, .AbsoluteX 0)
  | 0x1e => .ok (.ASL, .AbsoluteX 0)
  | 0x20 => .ok (.JSR, .Absolute 0)
  | 0x21 => .ok (.AND, .XIndexedIndirect 0)
  | 0x24 => .ok (.BIT, .ZeroPage 0)
  | 0x25 => .ok (.AND, .ZeroPage 0)
  | 0x26 => .ok (.ROL, .ZeroPage 0)
  | 0x28 => .ok (.PLP, .Implied)
  | 0x29 => .ok (.AND, .Immediate 0)
  | 0x2a => .ok (.ROL, .Accumulator)
  | 0x2c => .ok (.BIT, .Absolute 0)
  | 0x2d => .ok (.AND, .Absolute 0)
  | 0x2e => .ok (.ROL, .Absolute 0)
  | 0x30 => .ok (.BMI, .Relative 0)
  | 0x31 => .ok (.AND, .IndirectYIndexed 0)
  | 0x35 => .ok (.AND, .ZeroPageX 0)
  | 0x36 => .ok (.ROL, .ZeroPageX 0)
  | 0x38 => .ok (.SEC, .Implied)
  | 0x39 => .ok (.AND, .AbsoluteY 0)
  | 0x3d => .ok (.AND, .AbsoluteX 0)
  | 0x3e => .ok (.ROL, .AbsoluteX 0)
  | 0x40 => .ok (.RTI, .Implied)
  | 0x41 => .ok (.EOR, .XIndexedIndirect 0)
  | 0x45 => .ok (.EOR, .ZeroPage 0)
  | 0x46 => .ok (.LSR, .ZeroPage 0)
  | 0x48 => .ok (.PHA, .Implied)
  | 0x49 => .ok (.EOR, .Immediate 0)
  | 0x4a => .ok (.LSR, .Accumulator)
  | 0x4c => .ok (.JMP, .Absolute 0)
  | 0x4d => .ok (.EOR, .Absolute 0)
  | 0x4e => .ok (.LSR, .Absolute 0)
  | 0x50 => .ok (.BVC, .Relative 0)
  | 0x51 => .ok (.EOR, .IndirectYIndexed 0)
  | 0x55 => .ok (.EOR, .ZeroPageX 0)
  | 0x56 => .ok (.LSR, .ZeroPageX 0)
  | 0x58 => .ok (.CLI, .Implied)
  | 0x59 => .ok (.EOR, .AbsoluteY 0)
  | 0x5d => .ok (.EOR, .AbsoluteX 0)
  | 0x5e => .ok (.LSR, .AbsoluteX 0)
  | 0x60 => .ok (.RTS, .Implied)
  | 0x61 => .ok (.ADC, .XIndexedIndirect 0)
  | 0x65 => .ok (.ADC, .ZeroPage 0)
  | 0x66 => .ok (.ROR, .ZeroPage 0)
  | 0x68 => .ok (.PLA, .Implied)
  | 0x69 => .ok (.ADC, .Immediate 0)
  | 0x6a => .ok (.ROR, .Accumulator)
  | 0x6c => .ok (.JMP, .Indirect 0)
  | 0x6d => .ok (.ADC, .Absolute 0)
  | 0x6e => .ok (.ROR, .Absolute 0)
  | 0x70 => .ok (.BVS, .Relative 0)
  | 0x71 => .ok (.ADC, .IndirectYIndexed 0)
  | 0x75 => .ok (.ADC, .ZeroPageX 0)
  | 0x76 => .ok (.ROR, .ZeroPageX 0)
  | 0x78 => .ok (.SEI, .Implied)
  | 0x79 => .ok (.ADC, .AbsoluteY 0)
  | 0x7d => .ok (.ADC, .AbsoluteX 0)
  | 0x7e => .ok (.ROR, .AbsoluteX 0)
  | 0x81 => .ok (.STA, .XIndexedIndirect 0)
  | 0x84 => .ok (.STY, .ZeroPage 0)
  | 0x85 => .ok (.STA, .ZeroPage 0)
  | 0x86 => .ok (.STX, .ZeroPage 0)
  | 0x88 => .ok (.DEY, .Implied)
  | 0x8a => .ok (.TXA, .Implied)
  | 0x8c => .ok (.STY, .Absolute 0)
  | 0x8d => .ok (.STA, .Absolute 0)
  | 0x8e => .ok (.STX, .Absolute 0)
  | 0x90 => .ok (.BCC, .Relative 0)
  | 0x91 => .ok (.STA, .IndirectYIndexed 0)
  | 0x94 => .ok (.STY, .ZeroPageX 0)
  | 0x95 => .ok (.STA, .ZeroPageX 0)
  | 0x96 => .ok (.STX, .ZeroPageY 0)
  | 0x98 => .ok (.TYA, .Implied)
  | 0x99 => .ok (.STA, .AbsoluteY 0)
  | 0x9a => .ok (.TXS, .Implied)
  | 0x9d => .ok (.STA, .AbsoluteX 0)
  | 0xa0 => .ok (.LDY, .Immediate 0)
  | 0xa1 => .ok (.LDA, .XIndexedIndirect 0)
  | 0xa2 => .ok (.LDX, .Immediate 0)
  | 0xa4 => .ok (.LDY, .ZeroPage 0)
  | 0xa5 => .ok (.LDA, .ZeroPage 0)
  | 0xa6 => .ok (.LDX, .ZeroPage 0)
  | 0xa8 => .ok (.TAY, .Implied)
  | 0xa9 => .ok (.LDA, .Immediate 0)
  | 0xaa => .ok (.TAX, .Implied)
  | 0xac => .ok (.LDY, .Absolute 0)
  | 0xad => .ok (.LDA, .Absolute 0)
  | 0xae => .ok (.LDX, .Absolute 0)
  | 0xb0 => .ok (.BCS, .Relative 0)
  | 0xb1 => .ok (.LDA, .IndirectYIndexed 0)
  | 0xb4 => .ok (.LDY, .ZeroPageX 0)
  | 0xb5 => .ok (.LDA, .ZeroPageX 0)
  | 0xb6 => .ok (.LDX, .ZeroPageY 0)
  | 0xb8 => .ok (.CLV, .Implied)
  | 0xb9 => .ok (.LDA, .AbsoluteY 0)
  | 0xba => .ok (.TSX, .Implied)
  | 0xbc => .ok (.LDY, .AbsoluteX 0)
  | 0xbd => .ok (.LDA, .AbsoluteX 0)
  | 0xbe => .ok (.LDX, .AbsoluteY 0)
  | 0xc0 => .ok (.CPY, .Immediate 0)
  | 0xc1 => .ok (.CMP, .XIndexedIndirect 0)
  | 0xc4 => .ok (.CPY, .ZeroPage 0)
  | 0xc5 => .ok (.CMP, .ZeroPage 0)
  | 0xc6 => .ok (.DEC, .ZeroPage 0)
  | 0xc8 => .ok (.INY, .Implied)
  | 0xc9 => .ok (.CMP, .Immediate 0)
  | 0xca => .ok (.DEX, .Implied)
  | 0xcc => .ok (.CPY, .Absolute 0)
  | 0xcd => .ok (.CMP, .Absolute 0)
  | 0xce => .ok (.DEC, .Absolute 0)
  | 0xd0 => .ok (.BNE, .Relative 0)
  | 0xd1 => .ok (.CMP, .IndirectYIndexed 0)
  | 0xd5 => .ok (.CMP, .ZeroPageX 0)
  | 0xd6 => .ok (.DEC, .ZeroPageX 0)
  | 0xd8 => .ok (.CLD, .Implied)
  | 0xd9 => .ok (.CMP, .AbsoluteY 0)
  | 0xdd => .ok (.CMP, .AbsoluteX 0)
  | 0xde => .ok (.DEC, .AbsoluteX 0)
  | 0xe0 => .ok (.CPX, .Immediate 0)
  | 0xe1 => .ok (.SBC, .XIndexedIndirect 0)
  | 0xe4 => .ok (.CPX, .ZeroPage 0)
  | 0xe5 => .ok (.SBC, .ZeroPage 0)
  | 0xe6 => .ok (.INC, .ZeroPage 0)
  | 0xe8 => .ok (.INX, .Implied)
  | 0xe9 => .ok (.SBC, .Immediate 0)
  | 0xea => .ok (.NOP, .Implied)
  | 0xec => .ok (.CPX, .Absolute 0)
  | 0xed => .ok (.SBC, .Absolute 0)
  | 0xee => .ok (.INC, .Absolute 0)
  | 0xf0 => .ok (.BEQ, .Relative 0)
  | 0xf1 => .ok (.SBC, .IndirectYIndexed 0)
  | 0xf5 => .ok (.SBC, .ZeroPageX 0)
  | 0xf6 => .ok (.INC, .ZeroPageX 0)
  | 0xf8 => .ok (.SED, .Implied)
  | 0xf9 => .ok (.SBC, .AbsoluteY 0)
  | 0xfd => .ok (.SBC, .AbsoluteX 0)
  | 0xfe => .ok (.INC, .AbsoluteX 0)
  | _ => .error .InvalidOpcode

end InstDecoder

/-- The `take_mut::take` closure of `decode_into`: rewrite the operand's
payload, keeping its tag; one-byte tags take `op_byte`, two-byte tags take
`op_word`. -/
def substPayload (op : Operand) (op_byte : Nat) (op_word : Nat) : Operand :=
  match op with
  | .Accumulator => .Accumulator
  | .Implied => .Implied
  | .Immediate _ => .Immediate op_byte
  | .IndirectYIndexed _ => .IndirectYIndexed op_byte
  | .XIndexedIndirect _ => .XIndexedIndirect op_byte
  | .Relative _ => .Relative op_byte
  | .ZeroPage _ => .ZeroPage op_byte
  | .ZeroPageX _ => .ZeroPageX op_byte
  | .ZeroPageY _ => .ZeroPageY op_byte
  | .Absolute _ => .Absolute op_word
  | .AbsoluteX _ => .AbsoluteX op_word
  | .AbsoluteY _ => .AbsoluteY op_word
  | .Indirect _ => .Indirect op_word

namespace InstDecoder

/-- `Decoder::decode_into` from the source.  Returns the call's outcome, the
final state of the `&mut Instruction` argument, and the unread remainder of
the cursor.  Each `words.next()?` consumes one byte or fails with
`ExhaustedInput`; `u16::from_le_bytes [lo, hi]` is `lo + 256 * hi`; the
default-armed match over `operand.width()` maps widths other than 0, 1, 2 to
the `unreachable!()` panic. -/
def decode_into (inst : Instruction) (words : List Nat) :
    DecodeOutcome × Instruction × List Nat :=
  match words with
  | [] => (.err .ExhaustedInput, inst, [])
  | opcode :: ws =>
    match op_type opcode with
    | .error e => (.err e, { inst with opcode := .Invalid opcode }, ws)
    | .ok (op_ty, operand) =>
      match operand.width with
      | 0 => (.ok, { opcode := op_ty, operand := substPayload operand 0 0 }, ws)
      | 1 =>
        match ws with
        | [] => (.err .ExhaustedInput, inst, [])
        | op_byte :: ws1 =>
          (.ok, { opcode := op_ty, operand := substPayload operand op_byte 0 }, ws1)
      | 2 =>
        match ws with
        | [] => (.err .ExhaustedInput, inst, [])
        | _ :: [] => (.err .ExhaustedInput, inst, [])
        | byte_lo :: byte_hi :: ws2 =>
          (.ok, { opcode := op_ty,
                  operand := substPayload operand 0 (byte_lo + 256 * byte_hi) }, ws2)
      | _ + 3 => (.panicUnreachable, inst, ws)

/-- `Decoder::decode` (provided by the `yaxpeax_arch::Decoder` trait): run
`decode_into` on a default-initialized instruction. -/
def decode (words : List Nat) : DecodeOutcome × Instruction × List Nat :=
  decode_into Instruction.default words

end InstDecoder

/-- The 13 addressing modes as bare tags (observation type used to state
claims about the variant tag independently of the payload). -/
inductive AddrMode where
  | implied | accumulator | immediate | zeroPage | zeroPageX | zeroPageY
  | relative | indirectYIndexed | xIndexedIndirect
  | absolute | absoluteX | absoluteY | indirect
  deriving DecidableEq

/-- The addressing-mode tag of an operand, forgetting the payload. -/
def Operand.tag : Operand → AddrMode
  | .Accumulator => .accumulator
  | .Implied => .implied
  | .Immediate _ => .immediate
  | .ZeroPage _ => .zeroPage
  | .ZeroPageX _ => .zeroPageX
  | .ZeroPageY _ => .zeroPageY
  | .Relative _ => .relative
  | .IndirectYIndexed _ => .indirectYIndexed
  | .XIndexedIndirect _ => .xIndexedIndirect
  | .Absolute _ => .absolute
  | .AbsoluteX _ => .absoluteX
  | .AbsoluteY _ => .absoluteY
  | .Indirect _ => .indirect

/-- Modelled from the spec: the payload-width table of spec section 3
(implied and accumulator 0; immediate, zero-page, zero-page-X, zero-page-Y,
relative, indirect-Y-indexed, X-indexed-indirect 1; absolute, absolute-X,
absolute-Y, indirect 2). -/
def specWidth : AddrMode → Nat
  | .implied | .accumulator => 0
  | .immediate | .zeroPage | .zeroPageX | .zeroPageY
  | .relative | .indirectYIndexed | .xIndexedIndirect => 1
  | .absolute | .absoluteX | .absoluteY | .indirect => 2

/-- The payload value carried by an operand (0 for payload-free tags). -/
def Operand.payload : Operand → Nat
  | .Accumulator | .Implied => 0
  | .Immediate b | .IndirectYIndexed b | .XIndexedIndirect b | .Relative b
  | .ZeroPage b | .ZeroPageX b | .ZeroPageY b => b
  | .Absolute a | .AbsoluteX a | .AbsoluteY a | .Indirect a => a

example : InstDecoder.decode [0xEA] = (.ok, ⟨.NOP, .Implied⟩, []) := by decide
example : InstDecoder.decode [0xA9, 0x42] = (.ok, ⟨.LDA, .Immediate 0x42⟩, []) := by decide
example : InstDecoder.decode [0x4C, 0x00, 0x80] = (.ok, ⟨.JMP, .Absolute 0x8000⟩, []) := by
  decide
example : InstDecoder.decode [0xFF] =
    (.err .InvalidOpcode, ⟨.Invalid 0xFF, .Implied⟩, []) := by decide
example : InstDecoder.decode [0xA9] = (.err .ExhaustedInput, Instruction.default, []) := by
  decide

/-! ### Helper lemmas -/

theorem substPayload_tag (op : Operand) (b w : Nat) : (substPayload op b w).tag = op.tag := by
  cases op <;> rfl

theorem substPayload_width (op : Operand) (b w : Nat) :
    (substPayload op b w).width = op.width := by
  cases op <;> rfl

theorem substPayload_width_zero (op : Operand) (h : op.width = 0) :
    substPayload op 0 0 = op := by
  cases op <;> first | rfl | simp [Operand.width] at h

theorem substPayload_payload_two (op : Operand) (b w : Nat) (h : op.width = 2) :
    (substPayload op b w).payload = w := by
  cases op <;> first | rfl | simp [Operand.width] at h

theorem width_eq_specWidth (opd : Operand) : opd.width = specWidth opd.tag := by
  cases opd <;> rfl

set_option maxRecDepth 16384 in
set_option maxHeartbeats 0 in
theorem op_type_error_invalidOpcode (b : Nat) (e : DecodeError)
    (h : InstDecoder.op_type b = .error e) : e = .InvalidOpcode := by
  unfold InstDecoder.op_type at h
  split at h
  all_goals first
    | exact Except.noConfusion h
    | (injection h with h2; exact h2.symm)

/-- C1: for every byte value 0x00-0xFF, `op_type` returns either a declared
(Opcode, Operand) pair whose operand width matches the spec section 3 table
for its addressing-mode tag, or the InvalidOpcode error. -/
theorem op_type_total_and_width_matches_spec : ∀ b : Nat, b < 256 →
    InstDecoder.op_type b = .error .InvalidOpcode ∨
    ∃ t opd, InstDecoder.op_type b = .ok (t, opd) ∧ opd.width = specWidth opd.tag := by
  intro b hb
  cases h : InstDecoder.op_type b with
  | error e =>
    have he := op_type_error_invalidOpcode b e h
    subst he
    exact Or.inl rfl
  | ok p =>
    obtain ⟨t, opd⟩ := p
    exact Or.inr ⟨t, opd, rfl, width_eq_specWidth opd⟩

theorem op_type_total_and_width_matches_spec_witness :
    InstDecoder.op_type 0x4c = .error .InvalidOpcode ∨
    ∃ t opd, InstDecoder.op_type 0x4c = .ok (t, opd) ∧ opd.width = specWidth opd.tag :=
  op_type_total_and_width_matches_spec 0x4c (by decide)

/-- C2: for every opcode classified with a two-byte operand, decoding
[opcode, lo, hi] succeeds and the operand payload is lo ||| (hi <<< 8):
the first byte read is the low-order byte. -/
theorem decode_two_byte_operand_little_endian (inst : Instruction) (b lo hi : Nat)
    (t : Opcode) (opd : Operand)
    (h : InstDecoder.op_type b = .ok (t, opd)) (hw : opd.width = 2) (hlo : lo < 256) :
    ∃ inst', InstDecoder.decode_into inst [b, lo, hi] = (.ok, inst', []) ∧
      inst'.operand.payload = lo ||| (hi <<< 8) := by
  refine ⟨⟨t, substPayload opd 0 (lo + 256 * hi)⟩, ?_, ?_⟩
  · cases opd <;> simp_all [InstDecoder.decode_into, Operand.width]
  · rw [substPayload_payload_two opd 0 (lo + 256 * hi) hw]
    have hpow : (2 : Nat) ^ 8 = 256 := by norm_num
    have hlo8 : lo < 2 ^ 8 := by rw [hpow]; exact hlo
    have h2 := Nat.mul_add_lt_is_or hlo8 hi
    rw [hpow] at h2
    rw [Nat.shiftLeft_eq, hpow, Nat.lor_comm, Nat.mul_comm hi 256, ← h2]
    omega

theorem decode_two_byte_operand_little_endian_witness :
    ∃ inst', InstDecoder.decode_into Instruction.default [0x4c, 0x00, 0x80] =
      (.ok, inst', []) ∧ inst'.operand.payload = 0x00 ||| (0x80 <<< 8) :=
  decode_two_byte_operand_little_endian Instruction.default 0x4c 0x00 0x80 .JMP
    (.Absolute 0) rfl (by decide) (by decide)

/-- C3: every successful decode returns an instruction whose reported length
is operand width + 1, and consumed exactly that many bytes (between 1 and 3)
from the cursor. -/
theorem decode_len_and_consumed (inst inst' : Instruction) (ws rest : List Nat)
    (hd : InstDecoder.decode_into inst ws = (.ok, inst', rest)) :
    inst'.len = inst'.operand.width + 1 ∧
    ws.length = inst'.len + rest.length ∧
    rest = ws.drop inst'.len ∧ 1 ≤ inst'.len ∧ inst'.len ≤ 3 := by
  rcases ws with _ | ⟨b, ws⟩
  · simp [InstDecoder.decode_into] at hd
  · cases h : InstDecoder.op_type b with
    | error e => simp [InstDecoder.decode_into, h] at hd
    | ok p =>
      obtain ⟨t, opd⟩ := p
      rcases ws with _ | ⟨x, _ | ⟨y, ws2⟩⟩ <;> cases opd <;>
          simp [InstDecoder.decode_into, h, Operand.width] at hd <;>
        obtain ⟨h1, h2⟩ := hd <;> subst h1 <;> subst h2 <;>
        simp [Instruction.len, Operand.width, substPayload] <;> omega

theorem decode_len_and_consumed_witness :
    (⟨.NOP, .Implied⟩ : Instruction).len =
      (⟨.NOP, .Implied⟩ : Instruction).operand.width + 1 ∧
    [0xEA].length = (⟨.NOP, .Implied⟩ : Instruction).len + ([] : List Nat).length ∧
    ([] : List Nat) = [0xEA].drop (⟨.NOP, .Implied⟩ : Instruction).len ∧
    1 ≤ (⟨.NOP, .Implied⟩ : Instruction).len ∧ (⟨.NOP, .Implied⟩ : Instruction).len ≤ 3 :=
  decode_len_and_consumed Instruction.default ⟨.NOP, .Implied⟩ [0xEA] [] (by decide)

/-- C4: whenever the cursor is exhausted before the opcode byte or a
required operand byte can be read (empty input, or a classified opcode
followed by fewer bytes than its operand width), decode fails with
ExhaustedInput. -/
theorem decode_exhausted_on_truncated_input (inst : Instruction) (ws : List Nat)
    (h : ws = [] ∨ ∃ b rest t opd, ws = b :: rest ∧
      InstDecoder.op_type b = .ok (t, opd) ∧ rest.length < opd.width) :
    (InstDecoder.decode_into inst ws).1 = .err .ExhaustedInput := by
  rcases h with rfl | ⟨b, rest, t, opd, rfl, hop, hlen⟩
  · rfl
  · rcases rest with _ | ⟨x, _ | ⟨y, rest2⟩⟩ <;> cases opd <;>
      simp only [List.length_nil, List.length_cons, Operand.width] at hlen <;>
      first
        | omega
        | simp [InstDecoder.decode_into, hop, Operand.width]

theorem decode_exhausted_on_truncated_input_witness :
    (InstDecoder.decode_into Instruction.default [0x4c, 0x00]).1 = .err .ExhaustedInput :=
  decode_exhausted_on_truncated_input Instruction.default [0x4c, 0x00]
    (Or.inr ⟨0x4c, [0x00], .JMP, .Absolute 0, rfl, rfl, by decide⟩)

/-- C5: decoding a sequence whose first byte is unclassified fails with
InvalidOpcode, sets the instruction's operation to Invalid carrying that
byte, and leaves the operand exactly as it was. -/
theorem decode_invalid_opcode_diagnostic (inst : Instruction) (b : Nat) (ws : List Nat)
    (h : InstDecoder.op_type b = .error .InvalidOpcode) :
    InstDecoder.decode_into inst (b :: ws) =
      (.err .InvalidOpcode, ⟨.Invalid b, inst.operand⟩, ws) := by
  simp [InstDecoder.decode_into, h]

theorem decode_invalid_opcode_diagnostic_witness :
    InstDecoder.decode_into ⟨.NOP, .ZeroPage 5⟩ [0xFF, 1] =
      (.err .InvalidOpcode, ⟨.Invalid 0xFF, .ZeroPage 5⟩, [1]) :=
  decode_invalid_opcode_diagnostic ⟨.NOP, .ZeroPage 5⟩ 0xFF [1] rfl

/-- C6: on every successful decode, the addressing-mode tag of the returned
operand equals the tag produced by classifying the opcode byte; decoding
replaces only the payload, never the tag. -/
theorem decode_preserves_operand_tag (inst inst' : Instruction) (b : Nat)
    (ws rest : List Nat) (t : Opcode) (opd : Operand)
    (h : InstDecoder.op_type b = .ok (t, opd))
    (hd : InstDecoder.decode_into inst (b :: ws) = (.ok, inst', rest)) :
    inst'.operand.tag = opd.tag := by
  rcases ws with _ | ⟨x, _ | ⟨y, ws2⟩⟩ <;> cases opd <;>
      simp [InstDecoder.decode_into, h, Operand.width] at hd <;>
    obtain ⟨h1, h2⟩ := hd <;> subst h1 <;>
    simp [Operand.tag, substPayload]

theorem decode_preserves_operand_tag_witness :
    (⟨.LDA, .Immediate 0x42⟩ : Instruction).operand.tag = (Operand.Immediate 0).tag :=
  decode_preserves_operand_tag Instruction.default ⟨.LDA, .Immediate 0x42⟩ 0xA9 [0x42] []
    .LDA (.Immediate 0) rfl (by decide)

/-- C7: the concrete decode scenarios of the spec hold. -/
theorem decode_concrete_scenarios :
    InstDecoder.decode [0xEA] = (.ok, ⟨.NOP, .Implied⟩, []) ∧
    (⟨.NOP, .Implied⟩ : Instruction).len = 1 ∧
    InstDecoder.decode [0xA9, 0x42] = (.ok, ⟨.LDA, .Immediate 0x42⟩, []) ∧
    (⟨.LDA, .Immediate 0x42⟩ : Instruction).len = 2 ∧
    InstDecoder.decode [0x4C, 0x00, 0x80] = (.ok, ⟨.JMP, .Absolute 0x8000⟩, []) ∧
    (⟨.JMP, .Absolute 0x8000⟩ : Instruction).len = 3 ∧
    InstDecoder.decode [0x90, 0xFE] = (.ok, ⟨.BCC, .Relative 0xFE⟩, []) ∧
    (⟨.BCC, .Relative 0xFE⟩ : Instruction).len = 2 ∧
    (InstDecoder.decode [0xA9]).1 = .err .ExhaustedInput := by decide

/-- C8: decode never returns InvalidOperand and never reaches the
unreachable width branch, for every input sequence. -/
theorem decode_no_invalid_operand_no_panic (inst : Instruction) (ws : List Nat) :
    (InstDecoder.decode_into inst ws).1 ≠ .err .InvalidOperand ∧
    (InstDecoder.decode_into inst ws).1 ≠ .panicUnreachable := by
  rcases ws with _ | ⟨b, ws⟩
  · simp [InstDecoder.decode_into]
  · cases h : InstDecoder.op_type b with
    | error e =>
      have he : e = .InvalidOpcode := op_type_error_invalidOpcode b e h
      subst he
      simp [InstDecoder.decode_into, h]
    | ok p =>
      obtain ⟨t, opd⟩ := p
      rcases ws with _ | ⟨x, _ | ⟨y, ws2⟩⟩ <;> cases opd <;>
        simp [InstDecoder.decode_into, h, Operand.width]

/-- C9: decode is deterministic and depends only on the bytes read: two runs
on the same byte sequence give the same outcome and remainder; on success
the produced instructions are identical even from different initial states,
and equal initial states always give bit-identical results. -/
theorem decode_deterministic (inst1 inst2 : Instruction) (ws : List Nat) :
    (InstDecoder.decode_into inst1 ws).1 = (InstDecoder.decode_into inst2 ws).1 ∧
    (InstDecoder.decode_into inst1 ws).2.2 = (InstDecoder.decode_into inst2 ws).2.2 ∧
    ((InstDecoder.decode_into inst1 ws).1 = .ok →
      InstDecoder.decode_into inst1 ws = InstDecoder.decode_into inst2 ws) ∧
    (inst1 = inst2 →
      InstDecoder.decode_into inst1 ws = InstDecoder.decode_into inst2 ws) := by
  rcases ws with _ | ⟨b, ws⟩
  · simp [InstDecoder.decode_into]
  · cases h : InstDecoder.op_type b with
    | error e =>
      refine ⟨by simp [InstDecoder.decode_into, h], by simp [InstDecoder.decode_into, h],
        ?_, ?_⟩
      · intro hok
        simp [InstDecoder.decode_into, h] at hok
      · intro heq
        rw [heq]
    | ok p =>
      obtain ⟨t, opd⟩ := p
      rcases ws with _ | ⟨x, _ | ⟨y, ws2⟩⟩ <;> cases opd <;>
        simp [InstDecoder.decode_into, h, Operand.width]

theorem decode_deterministic_witness :
    (InstDecoder.decode_into ⟨.NOP, .Accumulator⟩ [0xEA]).1 =
      (InstDecoder.decode_into Instruction.default [0xEA]).1 ∧
    (InstDecoder.decode_into ⟨.NOP, .Accumulator⟩ [0xEA]).2.2 =
      (InstDecoder.decode_into Instruction.default [0xEA]).2.2 ∧
    ((InstDecoder.decode_into ⟨.NOP, .Accumulator⟩ [0xEA]).1 = .ok →
      InstDecoder.decode_into ⟨.NOP, .Accumulator⟩ [0xEA] =
        InstDecoder.decode_into Instruction.default [0xEA]) ∧
    ((⟨.NOP, .Accumulator⟩ : Instruction) = Instruction.default →
      InstDecoder.decode_into ⟨.NOP, .Accumulator⟩ [0xEA] =
        InstDecoder.decode_into Instruction.default [0xEA]) :=
  decode_deterministic ⟨.NOP, .Accumulator⟩ Instruction.default [0xEA]

/-- C10: whenever decode fails with ExhaustedInput, the instruction
argument is returned completely unchanged. -/
theorem decode_exhausted_leaves_inst_unchanged (inst : Instruction) (ws : List Nat)
    (h : (InstDecoder.decode_into inst ws).1 = .err .ExhaustedInput) :
    (InstDecoder.decode_into inst ws).2.1 = inst := by
  rcases ws with _ | ⟨b, ws⟩
  · rfl
  · cases hop : InstDecoder.op_type b with
    | error e =>
      have he : e = .InvalidOpcode := op_type_error_invalidOpcode b e hop
      subst he
      simp [InstDecoder.decode_into, hop] at h
    | ok p =>
      obtain ⟨t, opd⟩ := p
      rcases ws with _ | ⟨x, _ | ⟨y, ws2⟩⟩ <;> cases opd <;>
        simp_all [InstDecoder.decode_into, Operand.width]

theorem decode_exhausted_leaves_inst_unchanged_witness :
    (InstDecoder.decode_into Instruction.default [0xA9]).2.1 = Instruction.default :=
  decode_exhausted_leaves_inst_unchanged Instruction.default [0xA9] (by decide)
